import Mathlib

/-!
Formal model of the sales-dashboard pipeline in src/app.py of the
dashboard_vendas repository.

The core under verification is the filter-aggregate-compute pipeline:
apply_filters, compute_kpis, the three groupby aggregations feeding the
charts (daily, by city, by channel), build_top_products_table, and the
orchestration in main.  DataFrames are modelled as lists of typed records
(one per DataFrame row); pandas boolean-mask filtering is List.filter;
pandas groupby with its default sort=True is modelled as summing over the
sorted deduplicated key list; DataFrame.sort_values with the default
quicksort is modelled as a stable insertion sort on the sort column
(ascending=False is the reverse of the ascending argsort, as in pandas
nargsort).  Numpy's default quicksort is an unstable introsort that is
stable only in its small-partition insertion-sort regime, so the
model's tie order is a deterministic stand-in, not a program
guarantee: the theorems below rely only on order facts that hold for
every value-sorted rearrangement (adjacent-pair sortedness,
permutation, sums) or on concrete inputs small enough to fall in the
insertion-sort regime.  Monetary values are rationals, timestamps are
naturals counting seconds, and .dt.date is division by 86400.
-/

namespace App

/-!
Python compares strings lexicographically by code point; pandas groupby
sorts its group keys with that order.  Mathlib's order on String does not
reduce in the kernel, so we use an explicit executable code-point
lexicographic comparison on the underlying character lists.
-/

/-- Strict code-point lexicographic order on character lists, as Python
string comparison behaves. -/
def lexLtB : List Char → List Char → Bool
  | [], [] => false
  | [], _ :: _ => true
  | _ :: _, [] => false
  | a :: as, b :: bs =>
    if a.toNat < b.toNat then true
    else if b.toNat < a.toNat then false
    else lexLtB as bs

theorem lexLtB_irrefl (l : List Char) : lexLtB l l = false := by
  induction l with
  | nil => rfl
  | cons a as ih => simp [lexLtB, ih]

theorem lexLtB_trans (a : List Char) : ∀ (b c : List Char),
    lexLtB a b = true → lexLtB b c = true → lexLtB a c = true := by
  induction a with
  | nil =>
    intro b c hab hbc
    cases b with
    | nil => simp [lexLtB] at hab
    | cons y ys =>
      cases c with
      | nil => simp [lexLtB] at hbc
      | cons z zs => simp [lexLtB]
  | cons x xs ih =>
    intro b c hab hbc
    cases b with
    | nil => simp [lexLtB] at hab
    | cons y ys =>
      cases c with
      | nil => simp [lexLtB] at hbc
      | cons z zs =>
        simp only [lexLtB] at hab hbc ⊢
        split_ifs at hab hbc ⊢ <;> first
          | rfl
          | omega
          | exact ih ys zs hab hbc

theorem lexLtB_eq_of_not (a : List Char) : ∀ (b : List Char),
    lexLtB a b = false → lexLtB b a = false → a = b := by
  induction a with
  | nil =>
    intro b hab _
    cases b with
    | nil => rfl
    | cons y ys => simp [lexLtB] at hab
  | cons x xs ih =>
    intro b hab hba
    cases b with
    | nil => simp [lexLtB] at hba
    | cons y ys =>
      simp only [lexLtB] at hab hba
      rcases Nat.lt_trichotomy x.toNat y.toNat with h | h | h
      · rw [if_pos h] at hab
        exact absurd hab (by simp)
      · have hxy : x = y := Char.ext (UInt32.toNat.inj h)
        have hnlt : ¬ x.toNat < y.toNat := by omega
        have hnlt' : ¬ y.toNat < x.toNat := by omega
        rw [if_neg hnlt, if_neg hnlt'] at hab
        rw [if_neg hnlt', if_neg hnlt] at hba
        rw [hxy, ih ys hab hba]
      · rw [if_pos h] at hba
        exact absurd hba (by simp)

/-- Strict Python string order on String values. -/
def pyStrLt (a b : String) : Bool := lexLtB a.data b.data

/-- Non-strict Python string order, the order pandas uses to sort group
keys. -/
def pyStrLe (a b : String) : Bool := !(pyStrLt b a)

theorem string_data_inj {a b : String} (h : a.data = b.data) : a = b := by
  cases a
  cases b
  exact congrArg String.mk h

theorem pyStrLt_asymm {a b : String} (h : pyStrLt a b = true) :
    pyStrLt b a = false := by
  cases hba : pyStrLt b a
  · rfl
  · have := lexLtB_trans a.data b.data a.data h hba
    rw [lexLtB_irrefl] at this
    exact absurd this (by simp)

theorem pyStrLt_of_not {a b : String} (hab : pyStrLt a b = false)
    (hba : pyStrLt b a = false) : a = b :=
  string_data_inj (lexLtB_eq_of_not a.data b.data hab hba)

instance : IsTotal String (fun a b => pyStrLe a b = true) := by
  refine ⟨fun a b => ?_⟩
  cases h : pyStrLt b a
  · left
    simp [pyStrLe, h]
  · right
    simp [pyStrLe, pyStrLt_asymm h]

instance : IsTrans String (fun a b => pyStrLe a b = true) := by
  refine ⟨fun a b c hab hbc => ?_⟩
  simp only [pyStrLe, Bool.not_eq_true'] at hab hbc ⊢
  cases hca : pyStrLt c a
  · rfl
  · exfalso
    cases hab' : pyStrLt a b
    · rw [pyStrLt_of_not hab' hab] at hca
      rw [hca] at hbc
      exact Bool.true_eq_false.mp hbc
    · have := lexLtB_trans c.data a.data b.data hca hab'
      rw [show lexLtB c.data b.data = pyStrLt c b from rfl, hbc] at this
      exact Bool.false_eq_true.mp this

theorem pyStrLt_of_le_of_ne {a b : String} (h : pyStrLe a b = true)
    (hne : a ≠ b) : pyStrLt a b = true := by
  simp only [pyStrLe, Bool.not_eq_true'] at h
  cases hab : pyStrLt a b
  · exact absurd (pyStrLt_of_not hab h) hne
  · rfl

/-!
Data model.  One row of the loaded DataFrame, with the seven required
columns validated in main (src/app.py line 224).  data_venda is the
timestamp produced by pd.to_datetime, modelled as seconds since the
epoch; .dt.date truncates it to the day.  valor_total is the monetary
amount, modelled as a rational.
-/

/-- One row of the sales DataFrame. -/
structure Record where
  data_venda : Nat
  id_pedido : Nat
  cidade : String
  canal_venda : String
  categoria_produto : String
  produto : String
  valor_total : ℚ
deriving DecidableEq, Repr

/-- Day truncation of a timestamp, the model of .dt.date in
apply_filters (86400 seconds per day). -/
def dateOf (ts : Nat) : Nat := ts / 86400

/-- State of the sidebar date_input widget: streamlit hands apply_filters
a tuple of zero, one or two dates (src/app.py lines 56-71). -/
inductive DateSel where
  | noRange : DateSel
  | single (d : Nat) : DateSel
  | range (s e : Nat) : DateSel
deriving DecidableEq, Repr

/-- The user's sidebar selection: the date_input tuple plus the three
multiselect widgets (empty list means no constraint), as read by
apply_filters. -/
structure Selection where
  dateRange : DateSel
  cities : List String
  channels : List String
  categories : List String
deriving DecidableEq, Repr

/-- Date-range block of apply_filters (src/app.py lines 51-71): skipped
when the DataFrame is empty; a two-date tuple filters by inclusive day
range, a one-date tuple filters by exact day, an empty tuple leaves the
DataFrame unchanged. -/
def filterDate (sel : Selection) (df : List Record) : List Record :=
  if df.isEmpty then df
  else
    match sel.dateRange with
    | .noRange => df
    | .single d => df.filter (fun r => dateOf r.data_venda == d)
    | .range s e =>
        df.filter (fun r =>
          decide (s ≤ dateOf r.data_venda) && decide (dateOf r.data_venda ≤ e))

/-- City block of apply_filters (src/app.py lines 74-78): the isin mask
is applied only when the multiselect is non-empty. -/
def filterCity (sel : Selection) (df : List Record) : List Record :=
  if sel.cities.isEmpty then df
  else df.filter (fun r => sel.cities.contains r.cidade)

/-- Channel block of apply_filters (src/app.py lines 81-85). -/
def filterChannel (sel : Selection) (df : List Record) : List Record :=
  if sel.channels.isEmpty then df
  else df.filter (fun r => sel.channels.contains r.canal_venda)

/-- Category block of apply_filters (src/app.py lines 88-92). -/
def filterCategory (sel : Selection) (df : List Record) : List Record :=
  if sel.categories.isEmpty then df
  else df.filter (fun r => sel.categories.contains r.categoria_produto)

/-- apply_filters (src/app.py lines 38-94): the four filter blocks
reassign df in sequence; the widget-rendering side effects do not touch
the data. -/
def apply_filters (df : List Record) (sel : Selection) : List Record :=
  filterCategory sel (filterChannel sel (filterCity sel (filterDate sel df)))

/-- The date predicate a single row must pass, by case on the widget
tuple. -/
def datePred (ds : DateSel) (r : Record) : Bool :=
  match ds with
  | .noRange => true
  | .single d => dateOf r.data_venda == d
  | .range s e => decide (s ≤ dateOf r.data_venda) && decide (dateOf r.data_venda ≤ e)

/-- The conjunction of the four filter predicates of apply_filters. -/
def selPred (sel : Selection) (r : Record) : Bool :=
  datePred sel.dateRange r
    && (sel.cities.isEmpty || sel.cities.contains r.cidade)
    && (sel.channels.isEmpty || sel.channels.contains r.canal_venda)
    && (sel.categories.isEmpty || sel.categories.contains r.categoria_produto)

theorem filterDate_eq (sel : Selection) (df : List Record) :
    filterDate sel df = df.filter (fun r => datePred sel.dateRange r) := by
  unfold filterDate
  cases hd : df.isEmpty
  · cases sel.dateRange <;> simp [datePred]
  · rw [List.isEmpty_iff.mp hd]
    simp

theorem filterCity_eq (sel : Selection) (df : List Record) :
    filterCity sel df
      = df.filter (fun r => sel.cities.isEmpty || sel.cities.contains r.cidade) := by
  unfold filterCity
  cases hc : sel.cities.isEmpty <;> simp

theorem filterChannel_eq (sel : Selection) (df : List Record) :
    filterChannel sel df
      = df.filter (fun r => sel.channels.isEmpty || sel.channels.contains r.canal_venda) := by
  unfold filterChannel
  cases hc : sel.channels.isEmpty <;> simp

theorem filterCategory_eq (sel : Selection) (df : List Record) :
    filterCategory sel df
      = df.filter (fun r => sel.categories.isEmpty
          || sel.categories.contains r.categoria_produto) := by
  unfold filterCategory
  cases hc : sel.categories.isEmpty <;> simp

/-- apply_filters is one boolean-mask filter by the conjunction of its
four predicates. -/
theorem apply_filters_eq_filter (df : List Record) (sel : Selection) :
    apply_filters df sel = df.filter (selPred sel) := by
  unfold apply_filters
  rw [filterDate_eq, filterCity_eq, List.filter_filter, filterChannel_eq,
    List.filter_filter, filterCategory_eq, List.filter_filter]
  apply List.filter_congr
  intro x hx
  simp only [selPred]
  cases datePred sel.dateRange x <;>
    cases sel.cities.isEmpty || sel.cities.contains x.cidade <;>
      cases sel.channels.isEmpty || sel.channels.contains x.canal_venda <;>
        cases sel.categories.isEmpty || sel.categories.contains x.categoria_produto <;>
          rfl

/-!
KPI calculator (compute_kpis, src/app.py lines 96-121).
-/

/-- Sum of the valor_total column, pandas df.sum on the filtered frame. -/
def totalRevenue (df : List Record) : ℚ := (df.map Record.valor_total).sum

/-- Number of distinct id_pedido values, pandas nunique. -/
def orderCount (df : List Record) : Nat := (df.map Record.id_pedido).dedup.length

/-- The dictionary compute_kpis returns. -/
structure Kpis where
  total_revenue : ℚ
  order_count : Nat
  avg_ticket : ℚ
deriving DecidableEq, Repr

/-- compute_kpis (src/app.py lines 96-121): early return of zeros on an
empty frame, otherwise sum, nunique, and the guarded average-ticket
division. -/
def compute_kpis (df : List Record) : Kpis :=
  if df.isEmpty then ⟨0, 0, 0⟩
  else
    ⟨totalRevenue df, orderCount df,
      if 0 < orderCount df then totalRevenue df / (orderCount df : ℚ) else 0⟩

/-!
Aggregation views.  pandas groupby uses its default sort=True, so the
groups come out in ascending key order; each group's value is the sum of
valor_total over the rows carrying that key.  DataFrame.sort_values is
modelled as a stable insertion sort on the sort column; ascending=False
reverses the ascending argsort (pandas nargsort).  The stability of the
model is a deterministic stand-in for numpy's unstable default
quicksort: theorems about the sorted outputs use only
stability-independent consequences, or concrete inputs small enough
for numpy's small-partition insertion-sort fallback.
-/

/-- Group keys of a pandas groupby: the distinct values of the key
column, in ascending key order. -/
def groupKeys {κ : Type} [DecidableEq κ] (le : κ → κ → Bool)
    (key : Record → κ) (df : List Record) : List κ :=
  List.insertionSort (fun a b => le a b = true) (df.map key).dedup

/-- Result of groupby(key)[valor_total].sum().reset_index(): one
(key, summed value) row per distinct key, in ascending key order. -/
def groupSum {κ : Type} [DecidableEq κ] (le : κ → κ → Bool)
    (key : Record → κ) (df : List Record) : List (κ × ℚ) :=
  (groupKeys le key df).map
    (fun k => (k, totalRevenue (df.filter (fun r => decide (key r = k)))))

/-- Comparison on Nat used to sort timestamp group keys. -/
def natLe (a b : Nat) : Bool := decide (a ≤ b)

/-- The daily_revenue frame of plot_revenue_by_day (src/app.py lines
123-139): empty frames short-circuit before the groupby. -/
def daily_revenue (df : List Record) : List (Nat × ℚ) :=
  if df.isEmpty then []
  else groupSum natLe Record.data_venda df

/-- The city_revenue frame of plot_revenue_by_city (src/app.py lines
141-160): groupby cidade, then sort_values by valor_total ascending.
The insertion sort is a deterministic stand-in for the unstable
default quicksort of sort_values: the order it gives tied sums is not
a guarantee of the program. -/
def city_revenue (df : List Record) : List (String × ℚ) :=
  if df.isEmpty then []
  else List.insertionSort (fun a b => a.2 ≤ b.2) (groupSum pyStrLe Record.cidade df)

/-- The channel_revenue frame of plot_revenue_by_channel (src/app.py
lines 162-179): groupby canal_venda, no further sort. -/
def channel_revenue (df : List Record) : List (String × ℚ) :=
  if df.isEmpty then []
  else groupSum pyStrLe Record.canal_venda df

/-- One row of the table build_top_products_table returns: the product
name, its distinct id_pedido count and its summed valor_total. -/
structure ProductRow where
  produto : String
  pedidos : Nat
  faturamento : ℚ
deriving DecidableEq, Repr

/-- build_top_products_table (src/app.py lines 181-200): empty frames
return an empty table; otherwise groupby produto with the two named
aggregations, then sort_values by faturamento descending, modelled as
the reverse of the stable ascending sort. -/
def build_top_products_table (df : List Record) : List ProductRow :=
  if df.isEmpty then []
  else
    (List.insertionSort (fun a b => a.faturamento ≤ b.faturamento)
      ((groupKeys pyStrLe Record.produto df).map
        (fun k =>
          ⟨k, orderCount (df.filter (fun r => decide (r.produto = k))),
            totalRevenue (df.filter (fun r => decide (r.produto = k)))⟩))).reverse

/-- Everything main hands to the presentation sink once it reaches the
chart section. -/
structure DashboardView where
  kpis : Kpis
  daily : List (Nat × ℚ)
  byCity : List (String × ℚ)
  byChannel : List (String × ℚ)
  topProducts : List ProductRow
deriving DecidableEq, Repr

/-- Data flow of main (src/app.py lines 204-276) after the columns are
validated: an empty load halts (line 219), an empty filtered frame
halts with a warning (lines 233-235), otherwise the KPIs and the four
chart inputs are produced.  none models the early returns. -/
def main_pipeline (df : List Record) (sel : Selection) : Option DashboardView :=
  if df.isEmpty then none
  else
    let f := apply_filters df sel
    if f.isEmpty then none
    else
      some ⟨compute_kpis f, daily_revenue f, city_revenue f, channel_revenue f,
        build_top_products_table f⟩

/-!
Concrete inputs used by witnesses and counterexamples.
-/

/-- Epoch day number of 2023-01-15. -/
def day20230115 : Nat := 19372

/-- Epoch day number of 2023-01-20. -/
def day20230120 : Nat := 19377

/-- Epoch day number of 2023-02-10. -/
def day20230210 : Nat := 19398

/-- Three records on 2023-01-15, 2023-01-20 and 2023-02-10, the data of
the date-range degeneracy scenario. -/
def dateDf : List Record :=
  [⟨day20230115 * 86400, 1, "SP", "web", "c", "p", 100⟩,
   ⟨day20230120 * 86400, 1, "SP", "web", "c", "p", 200⟩,
   ⟨day20230210 * 86400, 2, "RJ", "web", "c", "p", 150⟩]

/-- A one-record set whose only city is SP. -/
def spOnlyDf : List Record := [⟨0, 1, "SP", "web", "c", "p", 5⟩]

/-- A selection keeping only the city RJ, which matches nothing in
spOnlyDf. -/
def rjOnlySel : Selection := ⟨DateSel.noRange, ["RJ"], [], []⟩

/-!
Claim theorems.
-/

/-- C1: whenever the distinct order-id count of the filtered set is
zero (in particular on the empty set), compute_kpis returns avg_ticket
exactly 0; the division is guarded by order_count > 0 in the
definition. -/
theorem spec_C1 (df : List Record) (h : orderCount df = 0) :
    (compute_kpis df).avg_ticket = 0 := by
  unfold compute_kpis
  split
  · rfl
  · simp [h]

theorem spec_C1_witness :
    orderCount ([] : List Record) = 0
      ∧ (compute_kpis ([] : List Record)).avg_ticket = 0 :=
  ⟨rfl, spec_C1 [] rfl⟩

/-- C6: a date_range collapsed to a single date keeps exactly the
records whose order_date, truncated to the day, equals that date; on
the records of 2023-01-15, 2023-01-20 and 2023-02-10 with the single
date 2023-01-15, exactly one record survives. -/
theorem spec_C6 (df : List Record) (d : Nat) :
    apply_filters df ⟨DateSel.single d, [], [], []⟩
        = df.filter (fun r => dateOf r.data_venda == d)
      ∧ (apply_filters dateDf ⟨DateSel.single day20230115, [], [], []⟩).length = 1 := by
  constructor
  · rw [apply_filters_eq_filter]
    apply List.filter_congr
    intro x hx
    simp [selPred, datePred]
  · decide

/-- C7 counterexample: with a one-record set and a selection matching
nothing, the filtered result is empty and main returns before the KPI
and aggregation stages run (src/app.py lines 233-235), so the pipeline
does not continue with empty aggregates as claimed. -/
theorem spec_C7_counterexample :
    (apply_filters spOnlyDf rjOnlySel).isEmpty = true
      ∧ main_pipeline spOnlyDf rjOnlySel = none := by
  constructor
  · decide
  · decide

/-- C7 amended: when the filtered result is empty, main halts with a
warning and the downstream stages are skipped (main_pipeline yields
none); each downstream stage, if applied to an empty record set,
returns zero-valued scalars or an empty series without faulting. -/
theorem spec_C7_amended (df : List Record) (sel : Selection)
    (h : (apply_filters df sel).isEmpty = true) :
    main_pipeline df sel = none
      ∧ compute_kpis ([] : List Record) = ⟨0, 0, 0⟩
      ∧ daily_revenue ([] : List Record) = []
      ∧ city_revenue ([] : List Record) = []
      ∧ channel_revenue ([] : List Record) = []
      ∧ build_top_products_table ([] : List Record) = [] := by
  refine ⟨?_, rfl, rfl, rfl, rfl, rfl⟩
  unfold main_pipeline
  cases hd : df.isEmpty
  · simp [h]
  · simp

theorem spec_C7_witness :
    main_pipeline spOnlyDf rjOnlySel = none
      ∧ compute_kpis ([] : List Record) = ⟨0, 0, 0⟩
      ∧ daily_revenue ([] : List Record) = []
      ∧ city_revenue ([] : List Record) = []
      ∧ channel_revenue ([] : List Record) = []
      ∧ build_top_products_table ([] : List Record) = [] :=
  spec_C7_amended spOnlyDf rjOnlySel (by decide)

/-- C9: re-applying the same selection to an already-filtered record
set changes nothing, the idempotence that holds because apply_filters
is a pure boolean-mask filter and never mutates its input. -/
theorem spec_C9 (df : List Record) (sel : Selection) :
    apply_filters (apply_filters df sel) sel = apply_filters df sel := by
  rw [apply_filters_eq_filter, apply_filters_eq_filter, List.filter_filter]
  apply List.filter_congr
  intro x hx
  cases selPred sel x <;> rfl

/-- C10: the filtered record set is a sublist of the input: every
output record comes from the input, none is duplicated or synthesized,
and the surviving records keep their relative order. -/
theorem spec_C10 (df : List Record) (sel : Selection) :
    (apply_filters df sel).Sublist df := by
  rw [apply_filters_eq_filter]
  exact List.filter_sublist df

/-!
Filter monotonicity machinery for C3.
-/

/-- The second selection equals the first except that one previously
inactive filter widget (the date tuple or one of the three
multiselects) has become active. -/
def ExtendsByOne (s s' : Selection) : Prop :=
  (s.dateRange = DateSel.noRange ∧ s'.dateRange ≠ DateSel.noRange
    ∧ s'.cities = s.cities ∧ s'.channels = s.channels ∧ s'.categories = s.categories)
  ∨ (s.cities = [] ∧ s'.cities ≠ []
    ∧ s'.dateRange = s.dateRange ∧ s'.channels = s.channels ∧ s'.categories = s.categories)
  ∨ (s.channels = [] ∧ s'.channels ≠ []
    ∧ s'.dateRange = s.dateRange ∧ s'.cities = s.cities ∧ s'.categories = s.categories)
  ∨ (s.categories = [] ∧ s'.categories ≠ []
    ∧ s'.dateRange = s.dateRange ∧ s'.cities = s.cities ∧ s'.channels = s.channels)

theorem selPred_implies {s s' : Selection} (h : ExtendsByOne s s')
    (r : Record) (hr : selPred s' r = true) : selPred s r = true := by
  unfold selPred at hr ⊢
  rcases h with ⟨h1, _, hc, hch, hcat⟩ | ⟨h1, _, hd, hch, hcat⟩
    | ⟨h1, _, hd, hc, hcat⟩ | ⟨h1, _, hd, hc, hch⟩
  · rw [hc, hch, hcat] at hr
    rw [h1]
    simp only [Bool.and_eq_true] at hr ⊢
    exact ⟨⟨⟨rfl, hr.1.1.2⟩, hr.1.2⟩, hr.2⟩
  · rw [hd, hch, hcat] at hr
    rw [h1]
    simp only [Bool.and_eq_true] at hr ⊢
    exact ⟨⟨⟨hr.1.1.1, rfl⟩, hr.1.2⟩, hr.2⟩
  · rw [hd, hc, hcat] at hr
    rw [h1]
    simp only [Bool.and_eq_true] at hr ⊢
    exact ⟨⟨⟨hr.1.1.1, hr.1.1.2⟩, rfl⟩, hr.2⟩
  · rw [hd, hc, hch] at hr
    rw [h1]
    simp only [Bool.and_eq_true] at hr ⊢
    exact ⟨⟨⟨hr.1.1.1, hr.1.1.2⟩, hr.1.2⟩, rfl⟩

theorem orderCount_mono {l₁ l₂ : List Record} (h : l₁.Sublist l₂) :
    orderCount l₁ ≤ orderCount l₂ := by
  unfold orderCount
  rw [← List.card_toFinset, ← List.card_toFinset]
  apply Finset.card_le_card
  intro a ha
  rw [List.mem_toFinset] at ha ⊢
  exact (h.map Record.id_pedido).subset ha

theorem totalRevenue_mono {l₁ l₂ : List Record} (h : l₁.Sublist l₂)
    (hpos : ∀ r ∈ l₂, 0 ≤ r.valor_total) :
    totalRevenue l₁ ≤ totalRevenue l₂ := by
  apply List.Sublist.sum_le_sum (h.map Record.valor_total)
  intro a ha
  rcases List.mem_map.mp ha with ⟨r, hr, rfl⟩
  exact hpos r hr

/-- C3: on a record set with non-negative values, activating one more
filter widget on top of a selection can only shrink the distinct order
count and the total revenue of the filtered result. -/
theorem spec_C3 (df : List Record) (s s' : Selection) (h : ExtendsByOne s s')
    (hpos : ∀ r ∈ df, 0 ≤ r.valor_total) :
    orderCount (apply_filters df s') ≤ orderCount (apply_filters df s)
      ∧ totalRevenue (apply_filters df s') ≤ totalRevenue (apply_filters df s) := by
  have hsub : (apply_filters df s').Sublist (apply_filters df s) := by
    rw [apply_filters_eq_filter, apply_filters_eq_filter]
    exact List.monotone_filter_right df (fun r hr => selPred_implies h r hr)
  refine ⟨orderCount_mono hsub, totalRevenue_mono hsub ?_⟩
  intro r hr
  have : r ∈ df := by
    rw [apply_filters_eq_filter] at hr
    exact (List.filter_sublist df).subset hr
  exact hpos r this

/-- The all-inactive selection. -/
def extendSelBase : Selection := ⟨DateSel.noRange, [], [], []⟩

/-- The selection extending extendSelBase by the city filter SP. -/
def extendSelCity : Selection := ⟨DateSel.noRange, ["SP"], [], []⟩

theorem spec_C3_witness :
    ExtendsByOne extendSelBase extendSelCity
      ∧ (∀ r ∈ spOnlyDf, 0 ≤ r.valor_total)
      ∧ (orderCount (apply_filters spOnlyDf extendSelCity)
            ≤ orderCount (apply_filters spOnlyDf extendSelBase)
        ∧ totalRevenue (apply_filters spOnlyDf extendSelCity)
            ≤ totalRevenue (apply_filters spOnlyDf extendSelBase)) := by
  have hE : ExtendsByOne extendSelBase extendSelCity := by
    right
    left
    refine ⟨rfl, ?_, rfl, rfl, rfl⟩
    simp [extendSelCity]
  have hpos : ∀ r ∈ spOnlyDf, 0 ≤ r.valor_total := by
    intro r hr
    simp only [spOnlyDf, List.mem_singleton] at hr
    rw [hr]
    norm_num
  exact ⟨hE, hpos, spec_C3 spOnlyDf extendSelBase extendSelCity hE hpos⟩

/-!
Revenue conservation machinery for C2: summing the per-group sums over
a duplicate-free list of keys covering every record recovers the total.
-/

theorem sum_filter_key {κ : Type} [DecidableEq κ] (key : Record → κ) :
    ∀ (ks : List κ) (l : List Record), ks.Nodup → (∀ r ∈ l, key r ∈ ks) →
      (ks.map (fun k => totalRevenue (l.filter (fun r => decide (key r = k))))).sum
        = totalRevenue l := by
  intro ks
  induction ks with
  | nil =>
    intro l _ hall
    cases l with
    | nil => rfl
    | cons a t => exact absurd (hall a (by simp)) (by simp)
  | cons k ks ih =>
    intro l hnd hall
    have hperm := List.filter_append_perm (fun r => decide (key r = k)) l
    have hsum := (hperm.map Record.valor_total).sum_eq
    rw [List.map_append, List.sum_append] at hsum
    have hsw : ∀ k' ∈ ks, l.filter (fun r => decide (key r = k'))
        = (l.filter (fun r => !decide (key r = k))).filter
            (fun r => decide (key r = k')) := by
      intro k' hk'
      rw [List.filter_filter]
      apply List.filter_congr
      intro x hx
      by_cases hxk : key x = k'
      · have hkne : k' ≠ k := by
          rintro rfl
          exact (List.nodup_cons.mp hnd).1 hk'
        have hxkk : ¬ key x = k := by
          rw [hxk]
          exact hkne
        simp [hxk, hxkk, hkne]
      · simp [hxk]
    have hmap : ks.map (fun k' => totalRevenue (l.filter (fun r => decide (key r = k'))))
        = ks.map (fun k' => totalRevenue
            ((l.filter (fun r => !decide (key r = k))).filter
              (fun r => decide (key r = k')))) :=
      List.map_congr_left (fun k' hk' => by rw [hsw k' hk'])
    have hih := ih (l.filter (fun r => !decide (key r = k)))
      (List.nodup_cons.mp hnd).2
      (by
        intro r hr
        rcases List.mem_filter.mp hr with ⟨hrl, hrk⟩
        have := hall r hrl
        rcases List.mem_cons.mp this with h | h
        · rw [h] at hrk
          simp at hrk
        · exact h)
    rw [List.map_cons, List.sum_cons, hmap, hih]
    exact hsum

/-- C2: the total_revenue of the KPI snapshot equals the sum of the
faturamento column over the rows of the top-products table built from
the same record set. -/
theorem spec_C2 (df : List Record) :
    ((build_top_products_table df).map ProductRow.faturamento).sum
      = (compute_kpis df).total_revenue := by
  unfold build_top_products_table compute_kpis
  cases hd : df.isEmpty
  · simp only [hd, Bool.false_eq_true, if_false]
    rw [List.map_reverse, List.sum_reverse]
    rw [((List.perm_insertionSort (fun a b : ProductRow => a.faturamento ≤ b.faturamento)
      _).map ProductRow.faturamento).sum_eq]
    rw [List.map_map]
    have hk : (groupKeys pyStrLe Record.produto df).Nodup :=
      (List.perm_insertionSort _ _).nodup_iff.mpr (List.nodup_dedup _)
    have hall : ∀ r ∈ df, r.produto ∈ groupKeys pyStrLe Record.produto df := by
      intro r hr
      apply (List.perm_insertionSort _ _).mem_iff.mpr
      exact List.mem_dedup.mpr (List.mem_map_of_mem Record.produto hr)
    exact sum_filter_key Record.produto (groupKeys pyStrLe Record.produto df) df hk hall
  · simp [hd]

instance : IsTotal (String × ℚ) (fun a b => a.2 ≤ b.2) :=
  ⟨fun a b => le_total a.2 b.2⟩

instance : IsTrans (String × ℚ) (fun a b => a.2 ≤ b.2) :=
  ⟨fun _ _ _ h1 h2 => le_trans h1 h2⟩

instance : IsTotal ProductRow (fun a b => a.faturamento ≤ b.faturamento) :=
  ⟨fun a b => le_total a.faturamento b.faturamento⟩

instance : IsTrans ProductRow (fun a b => a.faturamento ≤ b.faturamento) :=
  ⟨fun _ _ _ h1 h2 => le_trans h1 h2⟩

/-- C5: the by-city aggregate is sorted ascending by summed value:
every adjacent pair of output rows has the left sum at most the right
sum. -/
theorem spec_C5 (df : List Record) :
    (city_revenue df).Chain' (fun a b => a.2 ≤ b.2) := by
  unfold city_revenue
  split
  · exact List.chain'_nil
  · exact (List.sorted_insertionSort _ _).chain'

/-- Records with two products, P1 on orders 1 and 2 and P2 on order 1,
used to witness the product-ranking claim. -/
def productsDf : List Record :=
  [⟨0, 1, "SP", "web", "c", "P1", 5⟩,
   ⟨0, 1, "SP", "web", "c", "P2", 7⟩,
   ⟨0, 2, "SP", "web", "c", "P1", 4⟩]

/-- C8: on a non-empty record set the top-products table is sorted
descending by summed valor_total, its product column is exactly the set
of distinct products of the input (no top-N truncation), and each row
carries the distinct id_pedido count and the summed valor_total of its
product's records. -/
theorem spec_C8 (df : List Record) (h : df ≠ []) :
    (build_top_products_table df).Chain' (fun a b => b.faturamento ≤ a.faturamento)
      ∧ ((build_top_products_table df).map ProductRow.produto).Perm
          (df.map Record.produto).dedup
      ∧ ∀ row ∈ build_top_products_table df,
          row.pedidos = orderCount (df.filter (fun r => decide (r.produto = row.produto)))
            ∧ row.faturamento
                = totalRevenue (df.filter (fun r => decide (r.produto = row.produto))) := by
  have hd : df.isEmpty = false := by
    cases df
    · exact absurd rfl h
    · rfl
  unfold build_top_products_table
  rw [hd]
  simp only [Bool.false_eq_true, if_false]
  refine ⟨?_, ?_, ?_⟩
  · rw [List.chain'_reverse]
    exact (List.sorted_insertionSort
      (fun a b : ProductRow => a.faturamento ≤ b.faturamento) _).chain'
  · have h1 := (List.perm_insertionSort
      (fun a b : ProductRow => a.faturamento ≤ b.faturamento)
      ((groupKeys pyStrLe Record.produto df).map
        (fun k => (⟨k, orderCount (df.filter (fun r => decide (r.produto = k))),
          totalRevenue (df.filter (fun r => decide (r.produto = k)))⟩ : ProductRow)))).map
      ProductRow.produto
    rw [List.map_map] at h1
    have h2 : (groupKeys pyStrLe Record.produto df).map
        (ProductRow.produto ∘ fun k =>
          (⟨k, orderCount (df.filter (fun r => decide (r.produto = k))),
            totalRevenue (df.filter (fun r => decide (r.produto = k)))⟩ : ProductRow))
        = groupKeys pyStrLe Record.produto df := List.map_id _
    rw [h2] at h1
    rw [List.map_reverse]
    exact ((List.reverse_perm _).trans h1).trans
      (List.perm_insertionSort (fun a b => pyStrLe a b = true) _)
  · intro row hrow
    rw [List.mem_reverse] at hrow
    have hrow' := (List.perm_insertionSort
      (fun a b : ProductRow => a.faturamento ≤ b.faturamento) _).subset hrow
    rcases List.mem_map.mp hrow' with ⟨k, hk, rfl⟩
    exact ⟨rfl, rfl⟩

theorem spec_C8_witness :
    productsDf ≠ []
      ∧ ((build_top_products_table productsDf).Chain'
            (fun a b => b.faturamento ≤ a.faturamento)
        ∧ ((build_top_products_table productsDf).map ProductRow.produto).Perm
            (productsDf.map Record.produto).dedup
        ∧ ∀ row ∈ build_top_products_table productsDf,
            row.pedidos
                = orderCount (productsDf.filter (fun r => decide (r.produto = row.produto)))
              ∧ row.faturamento
                  = totalRevenue (productsDf.filter (fun r => decide (r.produto = row.produto)))) :=
  ⟨List.cons_ne_nil _ _, spec_C8 productsDf (List.cons_ne_nil _ _)⟩

/-- Two cities b then a in input order, with tied summed values. -/
def tieDf : List Record :=
  [⟨0, 1, "b", "web", "cat", "p", 10⟩,
   ⟨0, 2, "a", "web", "cat", "p", 10⟩]

/-- C4 counterexample: in tieDf the first-appearance order of the
cities is b then a and their summed values tie at 10, yet the by-city
aggregate lists a before b, because the pandas groupby sorts the group
keys; first-appearance order is already lost before the value sort. -/
theorem spec_C4_counterexample :
    tieDf.map Record.cidade = ["b", "a"]
      ∧ totalRevenue (tieDf.filter (fun r => decide (r.cidade = "b")))
          = totalRevenue (tieDf.filter (fun r => decide (r.cidade = "a")))
      ∧ (city_revenue tieDf).map Prod.fst = ["a", "b"] := by
  have ha : totalRevenue (tieDf.filter (fun r => decide (r.cidade = "a"))) = 10 := by
    show (10 : ℚ) + 0 = 10
    norm_num
  have hb : totalRevenue (tieDf.filter (fun r => decide (r.cidade = "b"))) = 10 := by
    show (10 : ℚ) + 0 = 10
    norm_num
  refine ⟨rfl, ?_, ?_⟩
  · rw [ha, hb]
  · show (List.insertionSort (fun a b : String × ℚ => a.2 ≤ b.2)
      [("a", totalRevenue (tieDf.filter (fun r => decide (r.cidade = "a")))),
       ("b", totalRevenue (tieDf.filter (fun r => decide (r.cidade = "b"))))]).map
        Prod.fst = ["a", "b"]
    rw [ha, hb]
    decide

/-- C4 amended: tied groups do not keep first-appearance order.  The
by-city output is a rearrangement of the key-sorted groupby rows (the
groupby discards input order by sorting group keys before the value
sort runs, and the value sort of sort_values guarantees no particular
order among equal sums); at the failing input, whose two tied rows fall
in the small-array insertion-sort regime of numpy's quicksort, they
come out in ascending key order a, b although first appearance is b,
a. -/
theorem spec_C4_amended (df : List Record) :
    (city_revenue df).Perm (groupSum pyStrLe Record.cidade df)
      ∧ tieDf.map Record.cidade = ["b", "a"]
      ∧ (city_revenue tieDf).map Prod.fst = ["a", "b"] := by
  have ha : totalRevenue (tieDf.filter (fun r => decide (r.cidade = "a"))) = 10 := by
    show (10 : ℚ) + 0 = 10
    norm_num
  have hb : totalRevenue (tieDf.filter (fun r => decide (r.cidade = "b"))) = 10 := by
    show (10 : ℚ) + 0 = 10
    norm_num
  refine ⟨?_, rfl, ?_⟩
  · unfold city_revenue
    cases hd : df.isEmpty
    · simp only [hd, Bool.false_eq_true, if_false]
      exact List.perm_insertionSort _ _
    · simp only [hd, if_true]
      rw [List.isEmpty_iff.mp hd]
      exact List.Perm.refl _
  · show (List.insertionSort (fun a b : String × ℚ => a.2 ≤ b.2)
      [("a", totalRevenue (tieDf.filter (fun r => decide (r.cidade = "a")))),
       ("b", totalRevenue (tieDf.filter (fun r => decide (r.cidade = "b"))))]).map
        Prod.fst = ["a", "b"]
    rw [ha, hb]
    decide

end App
